import Mathlib

/-!
Verification development for the AGICO medical-PDF extraction pipeline.

The source (`src/main.py`) is shallowly embedded below.  External engines
(PyPDF2, pdf2image, pytesseract, the OpenRouter HTTP endpoint, the `json`
library) are black boxes: they appear either as oracle parameters (records of
functions / request-outcome functions) or, for the JSON library, as an
executable model of the standard JSON grammar restricted to integer numerals
and the common escape sequences (every concrete input used below is parsed
identically by Python's `json.loads`).

Python data is modelled as follows: `str` is `String`, `dict`/`list` values
flowing through the analysis are the `Json` inductive, machine-level floats
appear only as the exact rationals they denote in the source (`0.1`,
percentages), exceptions become `Except`/`Option` values, and the Streamlit
reporting calls (`st.error`, `st.warning`, progress bars) are pure
observability side effects that carry no data flow and are not modelled.

Parts of the repository that the specification covers but that are not in
`src/` (the paragraph-respecting chunking variant with its ResultMerger and
typed-error ResponseRecoverer; the spec's §9 describes the two source
variants) are modelled from the specification text; each such definition is
marked `Modelled from the spec:`.
-/

/-! ## JSON values (model of Python dict/list/str/int/bool/None data) -/

/-- JSON values as produced by `json.loads` and consumed by the dashboard:
objects keep their key order, numbers are restricted to integers (no concrete
input below uses fractions). -/
inductive Json where
  | null : Json
  | bool (b : Bool) : Json
  | num (n : Int) : Json
  | str (s : String) : Json
  | arr (xs : List Json) : Json
  | obj (kvs : List (String × Json)) : Json

/-- The empty Python dict `{}`, returned by `analyze_medical_data` on every
failure path. -/
def emptyDict : Json := Json.obj []

/-- Characters skipped between JSON tokens (`json.loads` whitespace). -/
def isJsonWs (c : Char) : Bool :=
  [' ', '\t', '\n', '\r'].contains c

/-- Drop leading JSON whitespace. -/
def skipWs (l : List Char) : List Char := l.dropWhile isJsonWs

/-- JSON escape sequences (the `\uXXXX` form is unused by every concrete
input below and is conservatively rejected). -/
def escChar (c : Char) : Option Char :=
  if c = '"' then some c
  else if c = '\\' then some c
  else if c = '/' then some c
  else if c = 'n' then some '\n'
  else if c = 't' then some '\t'
  else if c = 'r' then some '\r'
  else if c = 'b' then some (Char.ofNat 8)
  else if c = 'f' then some (Char.ofNat 12)
  else none

/-- Parse the body of a JSON string literal after the opening quote; returns
the decoded characters and the remaining input after the closing quote. -/
def parseStrChars : List Char → Option (List Char × List Char)
  | [] => none
  | '"' :: rest => some ([], rest)
  | '\\' :: c :: rest =>
    match escChar c with
    | some e =>
      match parseStrChars rest with
      | some (s, r) => some (e :: s, r)
      | none => none
    | none => none
  | c :: rest =>
    match parseStrChars rest with
    | some (s, r) => some (c :: s, r)
    | none => none

/-- Parse a nonempty run of decimal digits. -/
def parseNatNum (cs : List Char) : Option (Nat × List Char) :=
  let digits := cs.takeWhile Char.isDigit
  if digits.isEmpty then none
  else some (digits.foldl (fun n c => 10 * n + (c.toNat - 48)) 0, cs.dropWhile Char.isDigit)

/-- Parser state: a plain value, or the element loop of an array / object
currently being assembled. -/
inductive PMode where
  | val
  | arrElems (acc : List Json)
  | objElems (acc : List (String × Json))

/-- Fuel-indexed recursive-descent JSON parser (executable model of
`json.loads` on the grammar described at `Json`). -/
def parseStep : Nat → PMode → List Char → Option (Json × List Char)
  | 0, _, _ => none
  | f + 1, PMode.val, cs =>
    match skipWs cs with
    | '{' :: rest => parseStep f (PMode.objElems []) rest
    | '[' :: rest => parseStep f (PMode.arrElems []) rest
    | '"' :: rest =>
      match parseStrChars rest with
      | some (chars, r) => some (Json.str (String.mk chars), r)
      | none => none
    | 't' :: 'r' :: 'u' :: 'e' :: r => some (Json.bool true, r)
    | 'f' :: 'a' :: 'l' :: 's' :: 'e' :: r => some (Json.bool false, r)
    | 'n' :: 'u' :: 'l' :: 'l' :: r => some (Json.null, r)
    | '-' :: rest =>
      match parseNatNum rest with
      | some (n, r) => some (Json.num (-(n : Int)), r)
      | none => none
    | c :: rest =>
      if c.isDigit then
        match parseNatNum (c :: rest) with
        | some (n, r) => some (Json.num (n : Int), r)
        | none => none
      else none
    | [] => none
  | f + 1, PMode.arrElems acc, cs =>
    match skipWs cs with
    | ']' :: r => if acc.isEmpty then some (Json.arr acc, r) else none
    | cs' =>
      match parseStep f PMode.val cs' with
      | none => none
      | some (v, rest) =>
        match skipWs rest with
        | ',' :: r2 => parseStep f (PMode.arrElems (acc ++ [v])) r2
        | ']' :: r2 => some (Json.arr (acc ++ [v]), r2)
        | _ => none
  | f + 1, PMode.objElems acc, cs =>
    match skipWs cs with
    | '}' :: r => if acc.isEmpty then some (Json.obj acc, r) else none
    | '"' :: rest =>
      match parseStrChars rest with
      | none => none
      | some (kchars, r1) =>
        match skipWs r1 with
        | ':' :: r2 =>
          match parseStep f PMode.val r2 with
          | none => none
          | some (v, r3) =>
            match skipWs r3 with
            | ',' :: r4 => parseStep f (PMode.objElems (acc ++ [(String.mk kchars, v)])) r4
            | '}' :: r4 => some (Json.obj (acc ++ [(String.mk kchars, v)]), r4)
            | _ => none
        | _ => none
    | _ => none

/-- Model of `json.loads`: the whole input must be a single JSON value
(trailing non-whitespace raises, i.e. yields `none`). -/
def jsonParse (s : String) : Option Json :=
  match parseStep (2 * s.length + 2) PMode.val s.data with
  | some (j, rest) => if (skipWs rest).isEmpty then some j else none
  | none => none

/-! ## Python string helpers -/

/-- Model of Python's `s[:n]` slice (take the first `n` characters). -/
def pyTake (n : Nat) (s : String) : String := String.mk (s.data.take n)

/-- Whitespace stripped by Python's `str.strip()`. -/
def isPySpace (c : Char) : Bool :=
  (c == ' ') || (c == '\n') || (c == '\t') || (c == '\r') || (c == '\x0b') || (c == '\x0c')

/-- Model of Python's `str.strip()`: remove leading and trailing whitespace. -/
def pyStrip (s : String) : String :=
  String.mk (((s.data.dropWhile isPySpace).reverse.dropWhile isPySpace).reverse)

/-! ## Brace-span recovery (source line 301: `re.search(r'\{.*\}', analysis_text, re.DOTALL)`)

Under `re.DOTALL`, the leftmost-longest match of `\{.*\}` runs from the
first `'{'` of the input to the last `'}'` of the input, provided that last
`'}'` lies strictly after that `'{'`; otherwise there is no match.  (A later
`'{'` can never start a match when the first one cannot, since every `'}'`
after a later `'{'` is also after the first.) -/

/-- Drop characters up to (and keeping) the first `'{'`. -/
def dropToBrace : List Char → List Char
  | [] => []
  | c :: cs => if c = '{' then c :: cs else dropToBrace cs

/-- Drop characters up to (and keeping) the first `'}'`. -/
def dropToClose : List Char → List Char
  | [] => []
  | c :: cs => if c = '}' then c :: cs else dropToClose cs

/-- Keep the input up to (and including) its last `'}'`; empty if there is
none. -/
def dropTailToClose (l : List Char) : List Char := (dropToClose l.reverse).reverse

/-- The span matched by `re.search(r'\{.*\}', s, re.DOTALL)`, if any. -/
def extractSpan (s : String) : Option String :=
  let m := dropTailToClose (dropToBrace s.data)
  if 2 ≤ m.length then some (String.mk m) else none

/-- The JSON-recovery step of `analyze_medical_data` (source lines 300-304):
locate the greedy brace-delimited span and run `json.loads` on it. -/
def recoverJson (s : String) : Option Json :=
  match extractSpan s with
  | some sp => jsonParse sp
  | none => none

/-! ## The extraction request (source lines 117-292) -/

/-- Constant `max_length = 3000` (source line 119). -/
def max_length : Nat := 3000

/-- Source lines 120-121: `if len(text) > max_length: text = text[:max_length]`
(the accompanying `st.warning` is pure reporting). -/
def truncateText (text : String) : String :=
  if max_length < text.length then pyTake max_length text else text
/-- First segment of the instructional prompt template of `analyze_medical_data` (source lines 124-128): everything before the interpolated document text. -/
def promptPart1 : String :=
  "\n            Analyze the following medical document and extract ALL available information in JSON format. \n            If any information is not found in the document, mark it as \"N/A\".\n            \n            Medical Document Text:\n            "

/-- Second segment of the prompt template (source lines 130-134): between the interpolated document text and the interpolated extraction timestamp. -/
def promptPart2 : String :=
  "\n            \n            Provide a comprehensive analysis in this JSON structure:\n            \x7b\n                \"document_metadata\": \x7b\n                    \"extraction_date\": \""

/-- Third segment of the prompt template (source lines 134-272): the remainder of the target JSON schema after the interpolated timestamp. -/
def promptPart3 : String :=
  "\",\n                    \"document_type\": \"medical_report\",\n                    \"file_source\": \"uploaded_pdf\",\n                    \"analysis_confidence\": \"high/medium/low\"\n                \x7d,\n                \"administrative_info\": \x7b\n                    \"bill_number\": \"extracted or N/A\",\n                    \"mr_number\": \"medical record number or N/A\",\n                    \"room_ward_number\": \"room/ward number or N/A\",\n                    \"hospital_name\": \"extracted or N/A\",\n                    \"hospital_address\": \"extracted or N/A\",\n                    \"hospital_phone\": \"extracted or N/A\",\n                    \"department\": \"extracted or N/A\",\n                    \"admission_number\": \"extracted or N/A\"\n                \x7d,\n                \"patient_info\": \x7b\n                    \"name\": \"extracted or N/A\",\n                    \"age\": \"extracted or N/A\",\n                    \"gender\": \"extracted or N/A\",\n                    \"date_of_birth\": \"extracted or N/A\",\n                    \"address\": \"extracted or N/A\",\n                    \"phone_number\": \"extracted or N/A\",\n                    \"emergency_contact\": \"extracted or N/A\",\n                    \"insurance_info\": \"extracted or N/A\",\n                    \"patient_id\": \"extracted or N/A\"\n                \x7d,\n                \"visit_details\": \x7b\n                    \"date_of_visit\": \"extracted or N/A\",\n                    \"admission_date\": \"extracted or N/A\",\n                    \"discharge_date\": \"extracted or N/A\",\n                    \"visit_type\": \"outpatient/inpatient/emergency or N/A\",\n                    \"chief_complaint\": \"extracted or N/A\",\n                    \"referring_physician\": \"extracted or N/A\"\n                \x7d,\n                \"medical_staff\": \x7b\n                    \"attending_physician\": \"extracted or N/A\",\n                    \"consultant_name\": \"extracted or N/A\",\n                    \"resident_doctor\": \"extracted or N/A\",\n                    \"nurse_in_charge\": \"extracted or N/A\",\n                    \"other_staff\": []\n                \x7d,\n                \"vital_signs\": \x7b\n                    \"blood_pressure_systolic\": \"number or N/A\",\n                    \"blood_pressure_diastolic\": \"number or N/A\",\n                    \"heart_rate\": \"number or N/A\",\n                    \"temperature\": \"number or N/A\",\n                    \"respiratory_rate\": \"number or N/A\",\n                    \"oxygen_saturation\": \"number or N/A\",\n                    \"weight\": \"number or N/A\",\n                    \"height\": \"number or N/A\",\n                    \"bmi\": \"calculated or N/A\",\n                    \"pain_scale\": \"1-10 or N/A\"\n                \x7d,\n                \"lab_results\": [\n                    \x7b\n                        \"test_name\": \"name\",\n                        \"value\": \"numeric value with unit\",\n                        \"normal_range\": \"range\",\n                        \"status\": \"normal/abnormal/critical\",\n                        \"date\": \"test date or N/A\"\n                    \x7d\n                ],\n                \"medications\": [\n                    \x7b\n                        \"name\": \"medication name\",\n                        \"dosage\": \"strength\",\n                        \"frequency\": \"how often\",\n                        \"route\": \"oral/IV/etc\",\n                        \"start_date\": \"date or N/A\",\n                        \"duration\": \"how long or N/A\",\n                        \"prescribing_doctor\": \"doctor name or N/A\"\n                    \x7d\n                ],\n                \"procedures\": [\n                    \x7b\n                        \"name\": \"procedure name\",\n                        \"date\": \"when performed\",\n                        \"doctor\": \"who performed\",\n                        \"outcome\": \"result\",\n                        \"complications\": \"any issues or none\"\n                    \x7d\n                ],\n                \"diagnoses\": [\n                    \x7b\n                        \"primary_diagnosis\": \"main diagnosis\",\n                        \"secondary_diagnoses\": [],\n                        \"icd_code\": \"code if available or N/A\",\n                        \"diagnosis_date\": \"date or N/A\",\n                        \"severity\": \"mild/moderate/severe or N/A\"\n                    \x7d\n                ],\n                \"imaging_studies\": [\n                    \x7b\n                        \"type\": \"X-ray/CT/MRI/etc\",\n                        \"body_part\": \"area examined\",\n                        \"date\": \"when done\",\n                        \"findings\": \"what was found\",\n                        \"radiologist\": \"who read it or N/A\"\n                    \x7d\n                ],\n                \"appointments_schedule\": [\n                    \x7b\n                        \"type\": \"follow-up/procedure/consultation\",\n                        \"date\": \"scheduled date\",\n                        \"time\": \"scheduled time\",\n                        \"doctor\": \"with whom\",\n                        \"purpose\": \"reason for appointment\",\n                        \"location\": \"where\"\n                    \x7d\n                ],\n                \"doctor_recommendations\": [],\n                \"discharge_instructions\": [],\n                \"key_findings\": [],\n                \"risk_factors\": [],\n                \"allergies\": [],\n                \"medical_history\": [],\n                \"family_history\": [],\n                \"social_history\": \x7b\n                    \"smoking\": \"yes/no/former or N/A\",\n                    \"alcohol\": \"frequency or N/A\",\n                    \"occupation\": \"job or N/A\",\n                    \"exercise\": \"frequency or N/A\"\n                \x7d,\n                \"follow_up_required\": \"details or N/A\",\n                \"billing_info\": \x7b\n                    \"total_charges\": \"amount or N/A\",\n                    \"insurance_coverage\": \"amount or N/A\",\n                    \"patient_responsibility\": \"amount or N/A\",\n                    \"payment_status\": \"paid/pending/partial or N/A\"\n                \x7d,\n                \"chart_data\": \x7b\n                    \"trend_analysis\": [],\n                    \"comparison_data\": [],\n                    \"time_series\": []\n                \x7d\n            \x7d\n            \n            Extract ALL numerical values that could be used for charts and graphs.\n            "

/-- The instructional prompt (source lines 124-272): the f-string with the
truncated document text and the current timestamp interpolated. -/
def buildPrompt (now text : String) : String :=
  promptPart1 ++ text ++ promptPart2 ++ now ++ promptPart3

/-- One chat message of the request payload. -/
structure ChatMessage where
  role : String
  content : String

/-- The JSON body of the extraction request (source lines 279-286). -/
structure ChatPayload where
  model : String
  messages : List ChatMessage
  max_tokens : Nat
  temperature : Rat

/-- The HTTP request issued by `requests.post` (source lines 288-292).
`timeout` models the `timeout` keyword of `requests.post`: the source passes
none, so the library default (wait indefinitely) applies. -/
structure HttpRequest where
  method : String
  url : String
  headers : List (String × String)
  payload : ChatPayload
  timeout : Option Nat

/-- The response visible to the source: status code, parsed JSON body
(`response.json()`), and raw text (`response.text`, used only in the error
message). -/
structure HttpResponse where
  statusCode : Nat
  body : Json
  text : String

/-- Outcome of `requests.post`: either the blocking call raised (transport
failure / timeout) or a response arrived. -/
inductive ReqOutcome where
  | failure
  | success (resp : HttpResponse)

/-- The exact request value `analyze_medical_data` sends for a given API key,
current timestamp and input text (source lines 117-292). -/
def sentRequest (apiKey now text : String) : HttpRequest :=
  { method := "POST"
    url := "https://openrouter.ai/api/v1/chat/completions"
    headers := [(("Authorization"), "Bearer " ++ apiKey), (("Content-Type"), "application/json")]
    payload :=
      { model := "meta-llama/llama-3.1-8b-instruct"
        messages := [{ role := "user", content := buildPrompt now (truncateText text) }]
        max_tokens := 3000
        temperature := (1 : Rat) / 10 }
    timeout := none }

/-- First-match association lookup (Python dict indexing; keys are unique in
every dict the source builds). -/
def lookupKey : List (String × Json) → String → Option Json
  | [], _ => none
  | (k, v) :: rest, key => if k = key then some v else lookupKey rest key

/-- Python `d[key]` on a JSON object; `none` models the raised `KeyError` /
`TypeError` on a non-object. -/
def jsonGet (j : Json) (key : String) : Option Json :=
  match j with
  | Json.obj kvs => lookupKey kvs key
  | _ => none

/-- Extraction `response.json()["choices"][0]["message"]["content"]` (source line 298);
`none` models any raised lookup error (caught by the enclosing `except`). -/
def getMessageContent (body : Json) : Option String :=
  match jsonGet body ("choices") with
  | some (Json.arr (c :: _)) =>
    match jsonGet c ("message") with
    | some m =>
      match jsonGet m ("content") with
      | some (Json.str s) => some s
      | _ => none
    | none => none
  | _ => none

/-- Model of `analyze_medical_data` (source lines 111-308), as a function of the
network oracle.  Every failure path of the source (request exception,
non-200 status, missing/ill-shaped response body, no brace-delimited span,
`json.loads` error) is caught by the source's `except` clauses and yields the
empty dict; the embedding is correspondingly total. -/
def analyze_medical_data (oracle : HttpRequest → ReqOutcome) (apiKey now text : String) : Json :=
  match oracle (sentRequest apiKey now text) with
  | ReqOutcome.failure => emptyDict
  | ReqOutcome.success resp =>
    if resp.statusCode = 200 then
      match getMessageContent resp.body with
      | none => emptyDict
      | some analysisText =>
        match recoverJson analysisText with
        | some j => j
        | none => emptyDict
    else emptyDict

/-! ## Text acquisition (source lines 70-109) -/

/-- The external PDF engines, as oracles: `nativePages` is the list of
per-page `page.extract_text()` results of PyPDF2 (or the exception the
native path raised), `convertFromBytes` is `pdf2image.convert_from_bytes`
as a function of the `dpi` argument (pages are opaque image ids), and
`imageToString` is `pytesseract.image_to_string` as a function of the image
and the `config` argument. -/
structure PdfEngines where
  nativePages : Except Unit (List String)
  convertFromBytes : Nat → Except Unit (List Nat)
  imageToString : Nat → String → String

/-- The per-page label-and-text block accumulated by the OCR loop
(source line 103: `f"Page {i+1}:\n{text}\n\n"` with `config='--psm 6'`). -/
def ocrPageText (e : PdfEngines) (i : Nat) (img : Nat) : String :=
  "Page " ++ toString (i + 1) ++ ":\n" ++ e.imageToString img ("--psm 6") ++ "\n\n"

/-- Model of `extract_text_with_ocr` (source lines 90-109): render all pages at
300 DPI, OCR each with `--psm 6`, concatenate labeled per-page output;
any exception degrades to the empty string. -/
def extract_text_with_ocr (e : PdfEngines) : String :=
  match e.convertFromBytes 300 with
  | Except.error _ => ""
  | Except.ok images => String.join ((images.enum).map (fun p => ocrPageText e p.1 p.2))

/-- Model of `extract_text_from_pdf` (source lines 70-88): concatenate native
per-page text with newline separators; if the stripped result is shorter
than 100 characters fall back to OCR; any exception degrades to the empty
string. -/
def extract_text_from_pdf (e : PdfEngines) : String :=
  match e.nativePages with
  | Except.error _ => ""
  | Except.ok pages =>
    let text := String.join (pages.map (fun t => t ++ "\n"))
    if (pyStrip text).length < 100 then extract_text_with_ocr e else text

/-! ## Summary statistics and completeness (source lines 488-498 and 998-1020) -/

/-- Python `len()` on a JSON value; `none` models the `TypeError` raised on
numbers, booleans and `None`. -/
def pyLen : Json → Option Nat
  | Json.arr xs => some xs.length
  | Json.obj kvs => some kvs.length
  | Json.str s => some s.length
  | _ => none

/-- Python `d.get(key, default)` on the analysis dict. -/
def getWithDefault (a : Json) (key : String) (d : Json) : Json :=
  match jsonGet a key with
  | some v => v
  | none => d

/-- Python truthiness of a JSON value (`if v`, `100 if section_data else 0`). -/
def truthy : Json → Bool
  | Json.null => false
  | Json.bool b => b
  | Json.num n => if n = 0 then false else true
  | Json.str s => if s = "" then false else true
  | Json.arr xs => if xs.isEmpty then false else true
  | Json.obj kvs => if kvs.isEmpty then false else true

/-- Whether a value equals the literal sentinel string `"N/A"`
(Python `v != "N/A"` is the negation of this). -/
def isNASentinel : Json → Bool
  | Json.str s => if s = "N/A" then true else false
  | _ => false

/-- A flat-mapping entry counted as filled by the completeness loop
(source line 1011: `if v and v != "N/A"`). -/
def isPopulated (v : Json) : Bool := truthy v && !(isNASentinel v)

/-- Model of `create_summary_statistics` (source lines 488-498): six list-field
counts; `none` models the `TypeError` Python raises when one of the six
fields holds a non-sized value. -/
def createSummaryStatistics (a : Json) : Option (List (String × Nat)) :=
  match pyLen (getWithDefault a ("medications") (Json.arr [])),
        pyLen (getWithDefault a ("procedures") (Json.arr [])),
        pyLen (getWithDefault a ("lab_results") (Json.arr [])),
        pyLen (getWithDefault a ("diagnoses") (Json.arr [])),
        pyLen (getWithDefault a ("appointments_schedule") (Json.arr [])),
        pyLen (getWithDefault a ("risk_factors") (Json.arr [])) with
  | some m, some p, some l, some d, some ap, some r =>
    some [(("total_medications"), m), (("total_procedures"), p), (("total_lab_tests"), l),
          (("total_diagnoses"), d), (("total_appointments"), ap), (("risk_factor_count"), r)]
  | _, _, _, _, _, _ => none

/-- The seven sections whose completeness `main` displays
(source lines 999-1007). -/
def completenessSections (a : Json) : List (String × Json) :=
  [ (("Administrative Info"), getWithDefault a ("administrative_info") (Json.obj []))
  , (("Patient Info"), getWithDefault a ("patient_info") (Json.obj []))
  , (("Vital Signs"), getWithDefault a ("vital_signs") (Json.obj []))
  , (("Lab Results"), getWithDefault a ("lab_results") (Json.arr []))
  , (("Medications"), getWithDefault a ("medications") (Json.arr []))
  , (("Procedures"), getWithDefault a ("procedures") (Json.arr []))
  , (("Diagnoses"), getWithDefault a ("diagnoses") (Json.arr [])) ]

/-- Per-section completeness (source lines 1009-1015): for a dict,
`filled / total * 100` (0 when empty); otherwise `100 if section_data else 0`.
Python's float division is modelled by exact rational division. -/
def sectionCompleteness : Json → Rat
  | Json.obj kvs =>
    if kvs.length = 0 then 0
    else ((kvs.filter (fun kv => isPopulated kv.2)).length : Rat) / (kvs.length : Rat) * 100
  | j => if truthy j then 100 else 0

/-- The completeness rows handed to the bar chart (source lines 1017-1020). -/
def completenessData (a : Json) : List (String × Rat) :=
  (completenessSections a).map (fun s => (s.1, sectionCompleteness s.2))

/-- The completeness formula as the specification words it: populated
entries divided by total entries, times 100. -/
def specCompleteness (kvs : List (String × Json)) : Rat :=
  100 * ((kvs.countP (fun kv => isPopulated kv.2)) : Rat) / (kvs.length : Rat)

/-! ## Components of the chunking source variant, modelled from the spec

`src/` holds only the truncation-only variant of the source; the spec's §2
(1915 source lines against the 1040 of `src/main.py`) and §9 (the "two
variants") place the Chunker, ResultMerger and typed-error ResponseRecoverer
in the other variant.  They are modelled here from the specification text. -/

/-- Modelled from the spec: the Chunker's greedy paragraph accumulation
(§4.2), missing from `src/`.  `cur` is the chunk being assembled (empty at
the start); a paragraph is appended while the running length plus separator
stays within `max_chars`, otherwise the current chunk is closed; a paragraph
arriving on an empty chunk always starts it, even oversized. -/
def chunkLoop (maxChars : Nat) : List String → String → List String
  | [], cur => if cur = "" then [] else [cur]
  | p :: ps, cur =>
    if cur = "" then chunkLoop maxChars ps p
    else if cur.length + 2 + p.length ≤ maxChars then
      chunkLoop maxChars ps (cur ++ "\n\n" ++ p)
    else cur :: chunkLoop maxChars ps p

/-- Modelled from the spec: `chunk(text, max_chars)` (§4.2) — split on the
paragraph boundary marker (two consecutive newlines) and greedily accumulate. -/
def chunkText (maxChars : Nat) (text : String) : List String :=
  chunkLoop maxChars (text.splitOn ("\n\n")) ""

/-- Token budget approximation (§4.2): `character_count / 4`. -/
def approxTokens (text : String) : Nat := text.length / 4

/-- Modelled from the spec: the Pipeline dispatch (§4.6), missing from
`src/` — one request on the full text when it fits the context budget,
otherwise one request per chunk with `max_chars = max_context_tokens * 4`. -/
def pipelineRequests (maxContextTokens : Nat) (text : String) : List String :=
  if approxTokens text ≤ maxContextTokens then [text]
  else chunkText (maxContextTokens * 4) text

/-- Modelled from the spec: the error taxonomy of the chunking variant's
ExtractionClient / ResponseRecoverer (§4.3, §4.4, §7), missing from `src/`. -/
inductive ExtractionError where
  | RequestFailed
  | ServiceRejected
  | MalformedResponse (preview : String)

/-- Modelled from the spec: `recover(raw_response_text)` of the chunking
variant's ResponseRecoverer (§4.4, §6), missing from `src/` — locate the
greedy brace-delimited span and parse it; on no span or a parse error,
return `MalformedResponse` carrying the first 2000 characters of the raw
response; independently of the outcome, persist the full raw response to an
artifact named by a role tag and a timestamp.  The result pairs the typed
outcome with the `(artifact name, artifact content)` write. -/
def recoverWithDiagnostics (tag timestamp raw : String) :
    Except ExtractionError Json × (String × String) :=
  ( match recoverJson raw with
    | some j => Except.ok j
    | none => Except.error (ExtractionError.MalformedResponse (pyTake 2000 raw))
  , (tag ++ "_" ++ timestamp ++ ".txt", raw) )

/-- Confidence levels of `document_metadata.analysis_confidence`. -/
inductive Confidence where
  | low
  | medium
  | high

/-- Confidence rank (spec glossary: `low=1, medium=2, high=3`). -/
def confRank : Confidence → Nat
  | Confidence.low => 1
  | Confidence.medium => 2
  | Confidence.high => 3

/-- The lower-ranked of two confidence levels. -/
def minConf (a b : Confidence) : Confidence :=
  if confRank b < confRank a then b else a

/-- Modelled from the spec: the ResultMerger confidence rule (§4.5), missing
from `src/` — the merged confidence is the level at the minimum rank across
chunks. -/
def mergeConfidence (c : Confidence) (cs : List Confidence) : Confidence :=
  cs.foldl minConf c

/-- A per-chunk structured record, reduced to the field the confidence rule
reads. -/
structure SpecChunkRecord where
  analysis_confidence : Confidence

/-- Modelled from the spec: `merge` restricted to
`document_metadata.analysis_confidence` (§4.5), over an ordered, nonempty
list of per-chunk records (head plus tail). -/
def mergeAnalysisConfidence (r : SpecChunkRecord) (rs : List SpecChunkRecord) : Confidence :=
  mergeConfidence r.analysis_confidence (rs.map (fun x => x.analysis_confidence))

/-! ## Claim C2: truncation to the first 3000 characters -/

/-- C2: for every input text longer than 3000 characters,
`analyze_medical_data` sends only the first 3000 characters to the
extraction service (the text embedded in the request is `text[:3000]`), and
characters at positions beyond 3000 never influence the returned record:
two texts agreeing on their first 3000 characters produce the same request
and hence the same result, whatever the network oracle replies.  (The
truncation warning is a pure reporting side effect.) -/
theorem truncation_independence (oracle : HttpRequest → ReqOutcome)
    (apiKey now t1 t2 : String)
    (h1 : max_length < t1.length) (h2 : max_length < t2.length)
    (heq : pyTake max_length t1 = pyTake max_length t2) :
    truncateText t1 = pyTake max_length t1 ∧
    analyze_medical_data oracle apiKey now t1 = analyze_medical_data oracle apiKey now t2 := by
  have e1 : truncateText t1 = pyTake max_length t1 := by
    unfold truncateText; rw [if_pos h1]
  have e2 : truncateText t2 = pyTake max_length t2 := by
    unfold truncateText; rw [if_pos h2]
  have etr : truncateText t1 = truncateText t2 := by rw [e1, e2, heq]
  have ereq : sentRequest apiKey now t1 = sentRequest apiKey now t2 := by
    unfold sentRequest; rw [etr]
  refine ⟨e1, ?_⟩
  unfold analyze_medical_data
  rw [ereq]

/-- A 3001-character text. -/
def wTextA : String := String.mk (List.replicate 3001 'a')

/-- A different 3001-character text agreeing with `wTextA` on the first 3000
characters. -/
def wTextB : String := String.mk (List.replicate 3000 'a' ++ ['b'])

/-- Witness for `truncation_independence` at two concrete 3001-character
texts differing only at position 3000. -/
theorem truncation_independence_witness :
    truncateText wTextA = pyTake max_length wTextA ∧
    analyze_medical_data (fun _ => ReqOutcome.failure) ("k") ("2025-01-01T00:00:00") wTextA =
      analyze_medical_data (fun _ => ReqOutcome.failure) ("k") ("2025-01-01T00:00:00") wTextB :=
  truncation_independence (fun _ => ReqOutcome.failure) ("k") ("2025-01-01T00:00:00")
    wTextA wTextB
    (by show max_length < (List.replicate 3001 'a').length
        rw [List.length_replicate]; decide)
    (by show max_length < (List.replicate 3000 'a' ++ ['b']).length
        rw [List.length_append, List.length_replicate]; decide)
    (by show String.mk ((List.replicate 3001 'a').take 3000) =
          String.mk ((List.replicate 3000 'a' ++ ['b']).take 3000)
        rw [List.take_replicate, List.take_append_eq_append_take, List.take_replicate,
          List.length_replicate]
        norm_num)

/-! ## Claim C8: shape of the extraction request -/

/-- C8 (amended): every extraction request is an HTTP POST with a
bearer-token authorization header and a JSON body holding the model
identifier, a single user-role message whose content is the instructional
template with the (truncated) text and the schema interpolated, a
maximum-output-token directive of 3000 and the low sampling temperature 0.1
— but it is sent with NO explicit timeout (`requests.post` is called without
a `timeout` argument, so the blocking call may wait indefinitely). -/
theorem extraction_request_shape (apiKey now text : String) :
    (sentRequest apiKey now text).method = "POST" ∧
    (sentRequest apiKey now text).url = "https://openrouter.ai/api/v1/chat/completions" ∧
    (sentRequest apiKey now text).headers =
      [(("Authorization"), "Bearer " ++ apiKey), (("Content-Type"), "application/json")] ∧
    (sentRequest apiKey now text).payload.model = "meta-llama/llama-3.1-8b-instruct" ∧
    (sentRequest apiKey now text).payload.messages =
      [{ role := "user"
         content := promptPart1 ++ truncateText text ++ promptPart2 ++ now ++ promptPart3 }] ∧
    (sentRequest apiKey now text).payload.max_tokens = 3000 ∧
    (sentRequest apiKey now text).payload.temperature = (1 : Rat) / 10 ∧
    (sentRequest apiKey now text).payload.temperature < 1 ∧
    (sentRequest apiKey now text).timeout = none :=
  ⟨rfl, rfl, rfl, rfl, rfl, rfl, rfl, by norm_num [sentRequest], rfl⟩

/-- Counterexample to C8 as stated: the claim requires the request to be
sent "as a blocking call with a fixed timeout", but the request the source
builds carries no timeout at all (the `timeout` keyword of `requests.post`
is left at its default, so a fixed timeout `some t` never occurs). -/
theorem extraction_request_no_timeout :
    (sentRequest ("key") ("2025-01-01T00:00:00") ("some text")).timeout = none := rfl

/-! ## Claim C10: analyze_medical_data failure paths -/

/-- C10: `analyze_medical_data` never propagates an exception (the embedding
is total; every `except` path of the source returns a value), and on each
failure path — request exception, non-200 status, no brace-delimited span in
the response content, or a JSON parse error on the located span — it returns
the empty dict, so the failure causes are indistinguishable in the returned
value. -/
theorem analyze_failure_paths (oracle : HttpRequest → ReqOutcome) (apiKey now text : String) :
    (oracle (sentRequest apiKey now text) = ReqOutcome.failure →
      analyze_medical_data oracle apiKey now text = emptyDict) ∧
    (∀ resp, oracle (sentRequest apiKey now text) = ReqOutcome.success resp →
      ¬ resp.statusCode = 200 →
      analyze_medical_data oracle apiKey now text = emptyDict) ∧
    (∀ resp content, oracle (sentRequest apiKey now text) = ReqOutcome.success resp →
      resp.statusCode = 200 →
      getMessageContent resp.body = some content →
      extractSpan content = none →
      analyze_medical_data oracle apiKey now text = emptyDict) ∧
    (∀ resp content span, oracle (sentRequest apiKey now text) = ReqOutcome.success resp →
      resp.statusCode = 200 →
      getMessageContent resp.body = some content →
      extractSpan content = some span →
      jsonParse span = none →
      analyze_medical_data oracle apiKey now text = emptyDict) := by
  refine ⟨?_, ?_, ?_, ?_⟩
  · intro h
    simp [analyze_medical_data, h]
  · intro resp h hs
    simp [analyze_medical_data, h, hs]
  · intro resp content h hs hc hsp
    simp [analyze_medical_data, h, hs, hc, recoverJson, hsp]
  · intro resp content span h hs hc hsp hp
    simp [analyze_medical_data, h, hs, hc, recoverJson, hsp, hp]

/-- A response body of the shape the source expects,
`{"choices": [{"message": {"content": ...}}]}`. -/
def wBody (content : String) : Json :=
  Json.obj [(("choices"),
    Json.arr [Json.obj [(("message"), Json.obj [(("content"), Json.str content)])]])]

/-- Witness for `analyze_failure_paths`: all four failure causes at concrete
inputs — a raised request, a 500 status, a content with no braces, and a
brace span that is not valid JSON — each return the empty dict. -/
theorem analyze_failure_paths_witness :
    analyze_medical_data (fun _ => ReqOutcome.failure) ("k") ("t0") ("doc") = emptyDict ∧
    analyze_medical_data (fun _ => ReqOutcome.success ⟨500, Json.null, "err"⟩)
      ("k") ("t0") ("doc") = emptyDict ∧
    analyze_medical_data (fun _ => ReqOutcome.success ⟨200, wBody ("no json at all"), ""⟩)
      ("k") ("t0") ("doc") = emptyDict ∧
    analyze_medical_data (fun _ => ReqOutcome.success ⟨200, wBody ("{oops}"), ""⟩)
      ("k") ("t0") ("doc") = emptyDict :=
  ⟨(analyze_failure_paths _ ("k") ("t0") ("doc")).1 rfl,
   (analyze_failure_paths _ ("k") ("t0") ("doc")).2.1 ⟨500, Json.null, "err"⟩ rfl (by decide),
   (analyze_failure_paths _ ("k") ("t0") ("doc")).2.2.1 ⟨200, wBody ("no json at all"), ""⟩
     ("no json at all") rfl rfl rfl rfl,
   (analyze_failure_paths _ ("k") ("t0") ("doc")).2.2.2 ⟨200, wBody ("{oops}"), ""⟩
     ("{oops}") ("{oops}") rfl rfl rfl rfl rfl⟩

/-! ## Claims C6 and C7: text acquisition -/

/-- C6: when native extraction succeeds but the stripped concatenation is
shorter than 100 characters, `extract_text_from_pdf` falls back to OCR, and
the OCR result renders the pages at 300 DPI, recognizes each with the
uniform-block layout mode `--psm 6`, and concatenates the per-page outputs
labeled by page number. -/
theorem ocr_fallback_on_short_text (e : PdfEngines) (pages : List String)
    (hn : e.nativePages = Except.ok pages)
    (hshort : (pyStrip (String.join (pages.map (fun t => t ++ "\n")))).length < 100) :
    extract_text_from_pdf e = extract_text_with_ocr e ∧
    ∀ imgs, e.convertFromBytes 300 = Except.ok imgs →
      extract_text_from_pdf e =
        String.join ((imgs.enum).map (fun p =>
          "Page " ++ toString (p.1 + 1) ++ ":\n" ++
            e.imageToString p.2 ("--psm 6") ++ "\n\n")) := by
  have h0 : extract_text_from_pdf e = extract_text_with_ocr e := by
    simp [extract_text_from_pdf, hn, hshort]
  refine ⟨h0, ?_⟩
  intro imgs himgs
  rw [h0]
  simp [extract_text_with_ocr, himgs, ocrPageText]

/-- A 50-character native extraction result. -/
def wFifty : String := String.mk (List.replicate 50 'A')

/-- Engines whose native pass finds exactly 50 characters and whose OCR pass
reads one page. -/
def e6case : PdfEngines :=
  { nativePages := Except.ok [wFifty]
    convertFromBytes := fun _ => Except.ok [7]
    imageToString := fun _ _ => "OCR RESULT" }

/-- Witness for `ocr_fallback_on_short_text`: a 50-character native result
(below the 100-character threshold) triggers the OCR fallback. -/
theorem ocr_fallback_witness :
    extract_text_from_pdf e6case = "Page 1:\nOCR RESULT\n\n" := by
  have h := (ocr_fallback_on_short_text e6case [wFifty] rfl (by decide)).2 [7] rfl
  exact h.trans (by decide)

/-- C7: text acquisition never raises to its caller (the embedding of both
stages is total, every source exception path being caught and degraded), and
the degradation is to the empty string: a native-path exception yields `""`
without attempting OCR, and an OCR-path exception after a short native
result also yields `""`. -/
theorem text_acquisition_degrades (e : PdfEngines) :
    (e.nativePages = Except.error () → extract_text_from_pdf e = "") ∧
    (∀ pages, e.nativePages = Except.ok pages →
      (pyStrip (String.join (pages.map (fun t => t ++ "\n")))).length < 100 →
      e.convertFromBytes 300 = Except.error () →
      extract_text_from_pdf e = "") := by
  constructor
  · intro h
    simp [extract_text_from_pdf, h]
  · intro pages hn hshort hocr
    simp [extract_text_from_pdf, hn, hshort, extract_text_with_ocr, hocr]

/-- Engines whose native pass raises. -/
def eFailNative : PdfEngines :=
  { nativePages := Except.error ()
    convertFromBytes := fun _ => Except.error ()
    imageToString := fun _ _ => "" }

/-- Engines whose native pass finds nothing and whose OCR pass raises. -/
def eFailOcr : PdfEngines :=
  { nativePages := Except.ok [""]
    convertFromBytes := fun _ => Except.error ()
    imageToString := fun _ _ => "" }

/-- Witness for `text_acquisition_degrades`: both failure shapes at concrete
engines yield the empty string. -/
theorem text_acquisition_degrades_witness :
    extract_text_from_pdf eFailNative = "" ∧ extract_text_from_pdf eFailOcr = "" :=
  ⟨(text_acquisition_degrades eFailNative).1 rfl,
   (text_acquisition_degrades eFailOcr).2 [""] rfl (by decide) rfl⟩

/-! ## Claim C3: merged confidence is the weakest confidence -/

/-- The folded confidence is one of the inputs. -/
lemma mergeConfidence_eq_or_mem (cs : List Confidence) :
    ∀ c, mergeConfidence c cs = c ∨ mergeConfidence c cs ∈ cs := by
  induction cs with
  | nil => intro c; left; rfl
  | cons b cs ih =>
    intro c
    have hstep : mergeConfidence c (b :: cs) = mergeConfidence (minConf c b) cs := rfl
    rw [hstep]
    rcases ih (minConf c b) with h | h
    · rw [h]
      unfold minConf
      split
      · right; exact List.mem_cons_self _ _
      · left; rfl
    · right; exact List.mem_cons_of_mem _ h

/-- The folded confidence is at most every input in rank. -/
lemma mergeConfidence_le (cs : List Confidence) :
    ∀ c, confRank (mergeConfidence c cs) ≤ confRank c ∧
      ∀ x ∈ cs, confRank (mergeConfidence c cs) ≤ confRank x := by
  induction cs with
  | nil =>
    intro c
    exact ⟨le_refl _, by intro x hx; cases hx⟩
  | cons b cs ih =>
    intro c
    have hstep : mergeConfidence c (b :: cs) = mergeConfidence (minConf c b) cs := rfl
    have h1 : confRank (minConf c b) ≤ confRank c := by
      unfold minConf
      split
      · exact Nat.le_of_lt (by assumption)
      · exact le_refl _
    have h2 : confRank (minConf c b) ≤ confRank b := by
      unfold minConf
      split
      · exact le_refl _
      · exact Nat.le_of_not_lt (by assumption)
    obtain ⟨ha, hb⟩ := ih (minConf c b)
    refine ⟨hstep ▸ le_trans ha h1, ?_⟩
    intro x hx
    rcases List.mem_cons.mp hx with rfl | hx'
    · exact hstep ▸ le_trans ha h2
    · exact hstep ▸ hb x hx'

/-- C3 (spec-modelled): for every ordered, nonempty list of per-chunk
records (head `r` plus tail `rs`), the merged
`document_metadata.analysis_confidence` is one of the chunk confidences and
has the minimum rank among them under `low=1 < medium=2 < high=3`; in
particular merging confidences `[high, low, medium]` yields `low`. -/
theorem merged_confidence_is_weakest (r : SpecChunkRecord) (rs : List SpecChunkRecord) :
    (mergeAnalysisConfidence r rs = r.analysis_confidence ∨
      mergeAnalysisConfidence r rs ∈ rs.map (fun x => x.analysis_confidence)) ∧
    confRank (mergeAnalysisConfidence r rs) ≤ confRank r.analysis_confidence ∧
    (∀ x ∈ rs, confRank (mergeAnalysisConfidence r rs) ≤ confRank x.analysis_confidence) ∧
    mergeAnalysisConfidence ⟨Confidence.high⟩ [⟨Confidence.low⟩, ⟨Confidence.medium⟩] =
      Confidence.low := by
  refine ⟨mergeConfidence_eq_or_mem _ _, (mergeConfidence_le _ _).1, ?_, rfl⟩
  intro x hx
  exact (mergeConfidence_le _ _).2 _ (List.mem_map_of_mem _ hx)

/-- Witness for `merged_confidence_is_weakest` at the concrete confidence
list `[high, low, medium]`. -/
theorem merged_confidence_is_weakest_witness :
    mergeAnalysisConfidence ⟨Confidence.high⟩ [⟨Confidence.low⟩, ⟨Confidence.medium⟩] =
      Confidence.low :=
  (merged_confidence_is_weakest ⟨Confidence.high⟩
    [⟨Confidence.low⟩, ⟨Confidence.medium⟩]).2.2.2

/-! ## Claim C4: malformed responses -/

/-- C4 (spec-modelled): when no brace-delimited span exists in the raw
response, or the located span fails to parse, the recovery step returns the
typed failure `MalformedResponse` carrying the first 2000 characters of the
raw response (a bounded preview), and the full raw response is persisted to
the timestamped artifact. -/
theorem malformed_response_handling (tag ts raw : String)
    (h : extractSpan raw = none ∨ ∃ sp, extractSpan raw = some sp ∧ jsonParse sp = none) :
    (recoverWithDiagnostics tag ts raw).1 =
      Except.error (ExtractionError.MalformedResponse (pyTake 2000 raw)) ∧
    (pyTake 2000 raw).length ≤ 2000 ∧
    (recoverWithDiagnostics tag ts raw).2 = (tag ++ "_" ++ ts ++ ".txt", raw) := by
  have hrec : recoverJson raw = none := by
    rcases h with h | ⟨sp, h1, h2⟩
    · simp [recoverJson, h]
    · simp [recoverJson, h1, h2]
  refine ⟨?_, ?_, rfl⟩
  · simp [recoverWithDiagnostics, hrec]
  · show (raw.data.take 2000).length ≤ 2000
    rw [List.length_take]
    exact min_le_left _ _

/-- Witness for `malformed_response_handling` at a concrete brace-free
response. -/
theorem malformed_response_handling_witness :
    (recoverWithDiagnostics ("single") ("20250101_000000")
        ("The model replied without any JSON.")).1 =
      Except.error (ExtractionError.MalformedResponse
        (pyTake 2000 ("The model replied without any JSON."))) ∧
    (pyTake 2000 ("The model replied without any JSON.")).length ≤ 2000 ∧
    (recoverWithDiagnostics ("single") ("20250101_000000")
        ("The model replied without any JSON.")).2 =
      ("single" ++ "_" ++ "20250101_000000" ++ ".txt",
       "The model replied without any JSON.") :=
  malformed_response_handling ("single") ("20250101_000000")
    ("The model replied without any JSON.") (Or.inl rfl)

/-! ## Claim C9: summary statistics and completeness -/

/-- On an object section the displayed completeness is exactly the
populated-over-total formula. -/
lemma sectionCompleteness_obj (kvs : List (String × Json)) (h : kvs ≠ []) :
    sectionCompleteness (Json.obj kvs) = specCompleteness kvs := by
  have hne : ¬ kvs.length = 0 := by simpa using h
  show (if kvs.length = 0 then 0
        else ((kvs.filter (fun kv => isPopulated kv.2)).length : Rat) / (kvs.length : Rat) * 100)
      = specCompleteness kvs
  rw [if_neg hne]
  unfold specCompleteness
  rw [List.countP_eq_length_filter]
  ring

/-- On a list section the displayed completeness is mere presence. -/
lemma sectionCompleteness_arr (xs : List Json) :
    sectionCompleteness (Json.arr xs) = if xs.isEmpty then 0 else 100 := by
  unfold sectionCompleteness truthy
  cases h : xs.isEmpty <;> simp [h]

/-- C9 (amended): the derived summary statistics count exactly six list
fields (medications, procedures, lab results, diagnoses, appointments, risk
factors), each count being the field's list length, and the completeness
display covers exactly three flat-mapping sections (administrative info,
patient info, vital signs), each with completeness equal to
populated-entries / total-entries × 100 (an entry is populated when it is
truthy and not the sentinel `"N/A"`); the four displayed list sections get
100 when nonempty and 0 when empty. -/
theorem summary_statistics_amended (a : Json)
    (ms ps ls ds aps rs : List Json)
    (hm : jsonGet a ("medications") = some (Json.arr ms))
    (hp : jsonGet a ("procedures") = some (Json.arr ps))
    (hl : jsonGet a ("lab_results") = some (Json.arr ls))
    (hd : jsonGet a ("diagnoses") = some (Json.arr ds))
    (hap : jsonGet a ("appointments_schedule") = some (Json.arr aps))
    (hr : jsonGet a ("risk_factors") = some (Json.arr rs))
    (adminKvs patientKvs vitalKvs : List (String × Json))
    (ha : jsonGet a ("administrative_info") = some (Json.obj adminKvs))
    (hpi : jsonGet a ("patient_info") = some (Json.obj patientKvs))
    (hv : jsonGet a ("vital_signs") = some (Json.obj vitalKvs))
    (hane : adminKvs ≠ []) (hpne : patientKvs ≠ []) (hvne : vitalKvs ≠ []) :
    createSummaryStatistics a =
      some [(("total_medications"), ms.length), (("total_procedures"), ps.length),
            (("total_lab_tests"), ls.length), (("total_diagnoses"), ds.length),
            (("total_appointments"), aps.length), (("risk_factor_count"), rs.length)] ∧
    completenessData a =
      [ (("Administrative Info"), specCompleteness adminKvs)
      , (("Patient Info"), specCompleteness patientKvs)
      , (("Vital Signs"), specCompleteness vitalKvs)
      , (("Lab Results"), if ls.isEmpty then 0 else 100)
      , (("Medications"), if ms.isEmpty then 0 else 100)
      , (("Procedures"), if ps.isEmpty then 0 else 100)
      , (("Diagnoses"), if ds.isEmpty then 0 else 100) ] := by
  constructor
  · simp [createSummaryStatistics, getWithDefault, hm, hp, hl, hd, hap, hr, pyLen]
  · simp [completenessData, completenessSections, getWithDefault, hm, hp, hl, hd, ha, hpi, hv,
      sectionCompleteness_obj _ hane, sectionCompleteness_obj _ hpne,
      sectionCompleteness_obj _ hvne, sectionCompleteness_arr]

/-- A concrete record populating every flat-mapping field of the schema and
a nonempty `allergies` list. -/
def wRecordFull : Json :=
  Json.obj
    [ (("administrative_info"), Json.obj [(("hospital_name"), Json.str ("General Hospital"))])
    , (("patient_info"), Json.obj [(("name"), Json.str ("Jane Doe"))])
    , (("visit_details"), Json.obj [(("visit_type"), Json.str ("outpatient"))])
    , (("medical_staff"), Json.obj [(("attending_physician"), Json.str ("Dr. Smith"))])
    , (("vital_signs"), Json.obj [(("heart_rate"), Json.str ("72"))])
    , (("social_history"), Json.obj [(("smoking"), Json.str ("no"))])
    , (("billing_info"), Json.obj [(("payment_status"), Json.str ("paid"))])
    , (("lab_results"), Json.arr [])
    , (("medications"), Json.arr [])
    , (("procedures"), Json.arr [])
    , (("diagnoses"), Json.arr [])
    , (("appointments_schedule"), Json.arr [])
    , (("risk_factors"), Json.arr [])
    , (("allergies"), Json.arr [Json.str ("penicillin")]) ]

/-- Counterexample to C9 as stated: on a record populating every
flat-mapping field and a nonempty `allergies` list, the derived statistics
hold counts for exactly six list fields (no count for `allergies`) and
completeness percentages for exactly three flat-mapping sections — none for
`visit_details`, `medical_staff`, `social_history` or `billing_info` — so
the claimed "count per list field" and "completeness percentage for each
flat-mapping field" both fail. -/
theorem summary_statistics_coverage_counterexample :
    (completenessData wRecordFull).map Prod.fst =
      [("Administrative Info"), ("Patient Info"), ("Vital Signs"), ("Lab Results"),
       ("Medications"), ("Procedures"), ("Diagnoses")] ∧
    (createSummaryStatistics wRecordFull).map (fun l => l.map Prod.fst) =
      some [("total_medications"), ("total_procedures"), ("total_lab_tests"),
            ("total_diagnoses"), ("total_appointments"), ("risk_factor_count")] := by
  exact ⟨rfl, rfl⟩

/-- Witness for `summary_statistics_amended` at a concrete record: one
medication, a half-populated administrative section (one real value, one
`"N/A"`), fully populated patient and vital sections. -/
def wRecordSmall : Json :=
  Json.obj
    [ (("medications"), Json.arr [Json.obj [(("name"), Json.str ("aspirin"))]])
    , (("procedures"), Json.arr [])
    , (("lab_results"), Json.arr [])
    , (("diagnoses"), Json.arr [])
    , (("appointments_schedule"), Json.arr [])
    , (("risk_factors"), Json.arr [])
    , (("administrative_info"),
        Json.obj [(("hospital_name"), Json.str ("General Hospital")),
                  (("bill_number"), Json.str ("N/A"))])
    , (("patient_info"), Json.obj [(("name"), Json.str ("Jane Doe"))])
    , (("vital_signs"), Json.obj [(("heart_rate"), Json.str ("72"))]) ]

/-- Witness for `summary_statistics_amended`, instantiated at
`wRecordSmall`. -/
theorem summary_statistics_amended_witness :
    createSummaryStatistics wRecordSmall =
      some [(("total_medications"), 1), (("total_procedures"), 0),
            (("total_lab_tests"), 0), (("total_diagnoses"), 0),
            (("total_appointments"), 0), (("risk_factor_count"), 0)] ∧
    completenessData wRecordSmall =
      [ (("Administrative Info"),
          specCompleteness [(("hospital_name"), Json.str ("General Hospital")),
                            (("bill_number"), Json.str ("N/A"))])
      , (("Patient Info"), specCompleteness [(("name"), Json.str ("Jane Doe"))])
      , (("Vital Signs"), specCompleteness [(("heart_rate"), Json.str ("72"))])
      , (("Lab Results"), (0 : Rat))
      , (("Medications"), (100 : Rat))
      , (("Procedures"), (0 : Rat))
      , (("Diagnoses"), (0 : Rat)) ] := by
  have h := summary_statistics_amended wRecordSmall
    [Json.obj [(("name"), Json.str ("aspirin"))]] [] [] [] [] []
    rfl rfl rfl rfl rfl rfl
    [(("hospital_name"), Json.str ("General Hospital")), (("bill_number"), Json.str ("N/A"))]
    [(("name"), Json.str ("Jane Doe"))] [(("heart_rate"), Json.str ("72"))]
    rfl rfl rfl (List.cons_ne_nil _ _) (List.cons_ne_nil _ _) (List.cons_ne_nil _ _)
  simpa using h

/-! ## Claim C1: conditional chunking with the paragraph budget -/

/-- Every chunk the greedy loop emits either fits the budget or is one of
the original paragraphs (`PS`), provided the pending chunk does and the
remaining paragraphs come from `PS`. -/
lemma chunkLoop_budget (maxChars : Nat) (PS : List String) :
    ∀ (ps : List String) (cur : String), (∀ p ∈ ps, p ∈ PS) →
      (cur.length ≤ maxChars ∨ cur ∈ PS) →
      ∀ c ∈ chunkLoop maxChars ps cur, c.length ≤ maxChars ∨ c ∈ PS := by
  intro ps
  induction ps with
  | nil =>
    intro cur _ hcur c hc
    unfold chunkLoop at hc
    by_cases h0 : cur = ""
    · rw [if_pos h0] at hc
      cases hc
    · rw [if_neg h0] at hc
      rcases List.mem_singleton.mp hc with rfl
      exact hcur
  | cons p ps ih =>
    intro cur hps hcur c hc
    have hpPS : p ∈ PS := hps p (List.mem_cons_self _ _)
    have hpsPS : ∀ q ∈ ps, q ∈ PS := fun q hq => hps q (List.mem_cons_of_mem _ hq)
    unfold chunkLoop at hc
    by_cases h0 : cur = ""
    · rw [if_pos h0] at hc
      exact ih p hpsPS (Or.inr hpPS) c hc
    · rw [if_neg h0] at hc
      by_cases h1 : cur.length + 2 + p.length ≤ maxChars
      · rw [if_pos h1] at hc
        refine ih (cur ++ "\n\n" ++ p) hpsPS (Or.inl ?_) c hc
        rw [String.length_append, String.length_append]
        exact h1
      · rw [if_neg h1] at hc
        rcases List.mem_cons.mp hc with rfl | hc'
        · exact hcur
        · exact ih p hpsPS (Or.inr hpPS) c hc'

/-- C1 (spec-modelled): the pipeline runs a single extraction request on the
full text when its approximate token count (`length / 4`) is within the
context budget; otherwise it runs exactly one request per chunk of the
paragraph-aligned chunking with `max_chars = max_context_tokens * 4`, and
every chunk is within `max_chars` except a chunk that is itself a single
oversized paragraph of the input. -/
theorem pipeline_chunk_dispatch (maxContextTokens : Nat) (text : String) :
    (approxTokens text ≤ maxContextTokens ∧
      pipelineRequests maxContextTokens text = [text]) ∨
    (maxContextTokens < approxTokens text ∧
      pipelineRequests maxContextTokens text = chunkText (maxContextTokens * 4) text ∧
      ∀ c ∈ pipelineRequests maxContextTokens text,
        c.length ≤ maxContextTokens * 4 ∨
        (c ∈ text.splitOn ("\n\n") ∧ maxContextTokens * 4 < c.length)) := by
  by_cases h : approxTokens text ≤ maxContextTokens
  · left
    exact ⟨h, by simp [pipelineRequests, h]⟩
  · right
    have hreq : pipelineRequests maxContextTokens text = chunkText (maxContextTokens * 4) text := by
      simp [pipelineRequests, h]
    refine ⟨Nat.lt_of_not_le h, hreq, ?_⟩
    intro c hc
    rw [hreq] at hc
    have hbudget := chunkLoop_budget (maxContextTokens * 4) (text.splitOn ("\n\n"))
      (text.splitOn ("\n\n")) "" (fun p hp => hp) (Or.inl (Nat.zero_le _)) c hc
    rcases hbudget with hle | hmem
    · exact Or.inl hle
    · by_cases h2 : c.length ≤ maxContextTokens * 4
      · exact Or.inl h2
      · exact Or.inr ⟨hmem, Nat.lt_of_not_le h2⟩

/-- Witness for `pipeline_chunk_dispatch`: a ten-character two-paragraph
text against a one-token budget is dispatched to the chunker. -/
theorem pipeline_chunk_dispatch_witness :
    pipelineRequests 1 ("aaaa\n\nbbbb") = chunkText 4 ("aaaa\n\nbbbb") := by
  rcases pipeline_chunk_dispatch 1 ("aaaa\n\nbbbb") with h | h
  · exact absurd h.1 (by decide)
  · exact h.2.1

/-! ## Claim C5: greedy brace-span recovery -/

/-- Unfolding equation of `dropToBrace` on a cons cell. -/
lemma dropToBrace_cons (x : Char) (cs : List Char) :
    dropToBrace (x :: cs) = if x = '{' then x :: cs else dropToBrace cs := rfl

/-- Unfolding equation of `dropToClose` on a cons cell. -/
lemma dropToClose_cons (x : Char) (cs : List Char) :
    dropToClose (x :: cs) = if x = '}' then x :: cs else dropToClose cs := rfl

/-- A brace-free prefix is skipped by the search for the first `'{'`. -/
lemma dropToBrace_append (a b : List Char) (h : ∀ c ∈ a, ¬ c = '{') :
    dropToBrace (a ++ b) = dropToBrace b := by
  induction a with
  | nil => rfl
  | cons x xs ih =>
    have hx : ¬ x = '{' := h x (List.mem_cons_self _ _)
    show dropToBrace (x :: (xs ++ b)) = dropToBrace b
    rw [dropToBrace_cons, if_neg hx]
    exact ih (fun c hc => h c (List.mem_cons_of_mem _ hc))

/-- A close-brace-free prefix is skipped by the search for the first `'}'`. -/
lemma dropToClose_append (a b : List Char) (h : ∀ c ∈ a, ¬ c = '}') :
    dropToClose (a ++ b) = dropToClose b := by
  induction a with
  | nil => rfl
  | cons x xs ih =>
    have hx : ¬ x = '}' := h x (List.mem_cons_self _ _)
    show dropToClose (x :: (xs ++ b)) = dropToClose b
    rw [dropToClose_cons, if_neg hx]
    exact ih (fun c hc => h c (List.mem_cons_of_mem _ hc))

/-- On a response made of a JSON-object span surrounded by a `'{'`-free
prefix and a `'}'`-free suffix, the greedy regex span is exactly the object
span. -/
lemma extractSpan_wrapped (pre obj post : String)
    (hpre : ∀ c ∈ pre.data, ¬ c = '{')
    (hpost : ∀ c ∈ post.data, ¬ c = '}')
    (hhead : obj.data.head? = some '{')
    (hlast : obj.data.getLast? = some '}') :
    extractSpan (pre ++ obj ++ post) = some obj := by
  obtain ⟨tl, htl⟩ : ∃ tl, obj.data = '{' :: tl := by
    cases hobj : obj.data with
    | nil => rw [hobj] at hhead; cases hhead
    | cons a tl =>
      rw [hobj] at hhead
      refine ⟨tl, ?_⟩
      simp only [List.head?] at hhead
      rw [Option.some_inj.mp hhead]
  obtain ⟨rv, hrv⟩ : ∃ rv, obj.data.reverse = '}' :: rv := by
    have hrev : obj.data.reverse.head? = some '}' := by
      rw [List.head?_reverse]; exact hlast
    cases hobj : obj.data.reverse with
    | nil => rw [hobj] at hrev; cases hrev
    | cons a rv =>
      rw [hobj] at hrev
      refine ⟨rv, ?_⟩
      simp only [List.head?] at hrev
      rw [Option.some_inj.mp hrev]
  have hdata : (pre ++ obj ++ post).data = pre.data ++ (obj.data ++ post.data) := by
    rw [String.data_append, String.data_append, List.append_assoc]
  have hstep1 : dropToBrace (pre ++ obj ++ post).data = obj.data ++ post.data := by
    rw [hdata, dropToBrace_append _ _ hpre, htl, List.cons_append, dropToBrace_cons, if_pos rfl]
  have hstep2 : dropTailToClose (obj.data ++ post.data) = obj.data := by
    unfold dropTailToClose
    rw [List.reverse_append]
    rw [dropToClose_append _ _ (by intro c hc; exact hpost c (List.mem_reverse.mp hc))]
    rw [hrv, dropToClose_cons, if_pos rfl, ← hrv, List.reverse_reverse]
  have hlen : 2 ≤ (obj.data).length := by
    rw [htl]
    cases tl with
    | nil =>
      rw [htl] at hlast
      simp at hlast
    | cons y ys =>
      simp only [List.length_cons]
      omega
  unfold extractSpan
  simp only [hstep1, hstep2]
  rw [if_pos hlen]

/-- C5 (amended): recovery locates the span from the first `'{'` to the LAST
`'}'` of the response (the greedy longest match of `\{.*\}` under
`re.DOTALL`, tolerant of surrounding prose and markdown fences) and parses
that span; in particular, for a response consisting of a JSON object inside
a ```` ```json ```` fence surrounded by prose whose prefix holds no `'{'`
and whose suffix holds no `'}'`, recovery succeeds and returns the inner
object unchanged. -/
theorem recovery_greedy_span (pre obj post : String) (v : Json)
    (hpre : ∀ c ∈ pre.data, ¬ c = '{')
    (hpost : ∀ c ∈ post.data, ¬ c = '}')
    (hhead : obj.data.head? = some '{')
    (hlast : obj.data.getLast? = some '}')
    (hparse : jsonParse obj = some v) :
    extractSpan (pre ++ obj ++ post) = some obj ∧
    recoverJson (pre ++ obj ++ post) = some v := by
  have hspan := extractSpan_wrapped pre obj post hpre hpost hhead hlast
  refine ⟨hspan, ?_⟩
  simp [recoverJson, hspan, hparse]

/-- Witness for `recovery_greedy_span`: a fenced JSON object surrounded by
prose is recovered unchanged. -/
theorem recovery_greedy_span_witness :
    recoverJson ("Sure! Here is the JSON:\n```json\n" ++ "\x7b\"a\": 1\x7d" ++
        "\n```\nLet me know if you need anything else.") =
      some (Json.obj [(("a"), Json.num 1)]) :=
  (recovery_greedy_span ("Sure! Here is the JSON:\n```json\n") ("\x7b\"a\": 1\x7d")
    ("\n```\nLet me know if you need anything else.") (Json.obj [(("a"), Json.num 1)])
    (by decide) (by decide) rfl rfl rfl).2

/-- A fenced JSON object surrounded by prose whose trailing prose happens to
contain a `'}'`. -/
def wCounterC5 : String := "Here is the JSON:\n```json\n\x7b\"a\": 1\x7d\n```\nAll done\x7d"

/-- Counterexample to C5 as stated: the claim says recovery locates the span
up to the STRUCTURALLY-MATCHING outermost `'}'` and succeeds on any fenced
JSON object surrounded by prose.  On this input the structurally-matching
span `{"a": 1}` parses fine, but the source's greedy search extends the span
to the last `'}'` of the trailing prose, the extended span is not valid
JSON, and recovery returns nothing. -/
theorem recovery_structural_counterexample :
    recoverJson wCounterC5 = none ∧
    extractSpan wCounterC5 = some ("\x7b\"a\": 1\x7d\n```\nAll done\x7d") ∧
    jsonParse ("\x7b\"a\": 1\x7d") = some (Json.obj [(("a"), Json.num 1)]) :=
  ⟨rfl, rfl, rfl⟩
